import Mathlib

/-!
Verification development for the Asset Increment backup plugin
(backup orchestration and integrity engine).

The definitions below are a shallow embedding of the plugin's source:

* `RdiffBackupWrapper` — the diff-engine adapter (`RdiffBackupWrapper.ts`):
  subprocess result construction, exit-code-1 warning recovery, session
  statistics parsing, increment-list parsing.
* `ResticBackupWrapper` — the snapshot-engine adapter (`ResticBackupWrapper.ts`):
  subprocess result construction, backup-output statistics parsing, snapshot
  id extraction, adjacent backup flow.
* `BackupVersioningService` — the 3-digit version metadata service.
* `BackupIntegrityService` — the rename ledger and historical-path lookup.
* A small interleaving semantics for concurrent backup calls.

JavaScript numbers arising from `parseFloat`/`parseInt` on the captured
digit strings are modelled as rationals; a `parseFloat` result of `NaN`
(possible for captures of the character class `[\d.]+` such as `"..."`)
is modelled as `none` in an `Option ℚ`.  File-system and process outcomes
are supplied through explicit world records, one field per observable the
source code branches on.
-/

/-! ## Character-list helpers used by the output parsers -/

/-- Split a character list at newline characters, exactly like
JavaScript `String.split('\n')` (an empty input yields one empty line). -/
def splitNl : List Char → List (List Char)
  | [] => [[]]
  | '\n' :: rest => [] :: splitNl rest
  | c :: rest =>
    match splitNl rest with
    | [] => [[c]]
    | l :: ls => (c :: l) :: ls

/-- Whitespace trim on both ends, like JavaScript `String.trim()`. -/
def trimChars (l : List Char) : List Char :=
  ((l.dropWhile Char.isWhitespace).reverse.dropWhile Char.isWhitespace).reverse

/-- Substring test, like JavaScript `String.includes`. -/
def containsSub : List Char → List Char → Bool
  | [], pat => pat.isEmpty
  | l@(_ :: rest), pat => pat.isPrefixOf l || containsSub rest pat

/-- Numeric value of a list of decimal digit characters. -/
def digitsToNat (l : List Char) : Nat :=
  l.foldl (fun acc c => acc * 10 + (c.toNat - 48)) 0

/-- Value matched by the regex fragment `\d+\.?\d*` starting at a position
known to hold a digit: greedy integer digits, an optional dot, greedy
fractional digits. -/
def decimalAt (l : List Char) : ℚ :=
  let intPart := l.takeWhile Char.isDigit
  let rest := l.drop intPart.length
  match rest with
  | '.' :: r =>
    let frac := r.takeWhile Char.isDigit
    (digitsToNat intPart : ℚ) + (digitsToNat frac : ℚ) / (10 : ℚ) ^ frac.length
  | _ => (digitsToNat intPart : ℚ)

/-- First match of `/(\d+)/`: the first maximal digit run, read with
`parseInt`. -/
def firstNat : List Char → Option Nat
  | [] => none
  | c :: rest =>
    if c.isDigit then some (digitsToNat ((c :: rest).takeWhile Char.isDigit))
    else firstNat rest

/-- First match of `/(\d+\.?\d*)/`, read with `parseFloat`. -/
def firstNumQ : List Char → Option ℚ
  | [] => none
  | c :: rest => if c.isDigit then some (decimalAt (c :: rest)) else firstNumQ rest

/-- First match of `/\((\d+\.?\d*)/`: scan for an opening parenthesis
immediately followed by a digit, read the number with `parseFloat`. -/
def firstParenNum : List Char → Option ℚ
  | [] => none
  | '(' :: rest =>
    match rest with
    | c :: _ => if c.isDigit then some (decimalAt rest) else firstParenNum rest
    | [] => none
  | _ :: rest => firstParenNum rest

/-! ## Diff-engine statistics parsing (`RdiffBackupWrapper.parseStatisticsContent`)

The source builds a `Partial<BackupStatistics>` object (all fields start
absent) and then casts it; an absent field is modelled as `none`. -/

/-- The object produced by the diff-engine statistics parser, a
`Partial<BackupStatistics>`: every field starts absent (`undefined`). -/
structure RdiffStats where
  changedFiles : Option Nat := none
  changedSourceSize : Option ℚ := none
  incrementFileSize : Option ℚ := none
  totalDestinationSizeChange : Option ℚ := none
  elapsedTime : Option ℚ := none
  compressionRatio : Option ℚ := none
  spaceSavings : Option ℚ := none
deriving DecidableEq, Repr

/-- One iteration of the diff-engine parser's line loop: the
`includes`-keyed `else if` chain, each branch assigning its field only
when its regex matches. -/
def parseStatisticsLine (stats : RdiffStats) (line : List Char) : RdiffStats :=
  if containsSub line ("ChangedFiles".toList) then
    match firstNat line with
    | some n => { stats with changedFiles := some n }
    | none => stats
  else if containsSub line ("ChangedSourceSize".toList) then
    match firstParenNum line with
    | some q => { stats with changedSourceSize := some q }
    | none => stats
  else if containsSub line ("IncrementFileSize".toList) then
    match firstParenNum line with
    | some q => { stats with incrementFileSize := some q }
    | none => stats
  else if containsSub line ("TotalDestinationSizeChange".toList) then
    match firstParenNum line with
    | some q => { stats with totalDestinationSizeChange := some q }
    | none => stats
  else if containsSub line ("ElapsedTime".toList) then
    match firstNumQ line with
    | some q => { stats with elapsedTime := some q }
    | none => stats
  else stats

/-- The derived-metrics step: ratios are computed only when both operands
are present and nonzero (JavaScript truthiness of
`stats.incrementFileSize && stats.changedSourceSize`). -/
def finishRdiffStats (s : RdiffStats) : RdiffStats :=
  match s.incrementFileSize, s.changedSourceSize with
  | some inc, some src =>
    if inc = 0 ∨ src = 0 then s
    else
      { s with
        compressionRatio := some (inc / src * 100)
        spaceSavings := some ((1 - inc / src) * 100) }
  | _, _ => s

/-- `RdiffBackupWrapper.parseStatisticsContent`: split the session
statistics artifact into lines, run the keyword chain on each, then add
derived metrics. -/
def parseStatisticsContent (content : String) : RdiffStats :=
  finishRdiffStats ((splitNl content.toList).foldl parseStatisticsLine {})

/-! ## Snapshot-engine output parsing (`ResticBackupWrapper.parseBackupOutput`)

Each regex of the source is embedded as a matcher tried at one position,
plus a left-to-right scan for the first position where it succeeds. -/

/-- Strip a literal prefix, or fail. -/
def lit : List Char → List Char → Option (List Char)
  | [], l => some l
  | p :: ps, c :: cs => if p == c then lit ps cs else none
  | _ :: _, [] => none

/-- Greedy `\s*`. -/
def ws (l : List Char) : List Char := l.dropWhile Char.isWhitespace

/-- Greedy `\s+` (at least one whitespace character). -/
def ws1 : List Char → Option (List Char)
  | c :: r => if c.isWhitespace then some (ws r) else none
  | [] => none

/-- Greedy `(\d+)`, read with `parseInt`. -/
def digitsOpt (l : List Char) : Option (Nat × List Char) :=
  let d := l.takeWhile Char.isDigit
  if d.isEmpty then none else some (digitsToNat d, l.drop d.length)

/-- Greedy `([\d.]+)`: the raw capture of digits and dots. -/
def numDots (l : List Char) : Option (List Char × List Char) :=
  let d := l.takeWhile (fun c => c.isDigit || c == '.')
  if d.isEmpty then none else some (d, l.drop d.length)

/-- JavaScript `parseFloat` on a capture of `[\d.]+`: leading digits, an
optional dot and fractional digits; anything after a second dot is
ignored; `none` models `NaN` (no digit before the scan stops). -/
def jsParseFloat (l : List Char) : Option ℚ :=
  let ip := l.takeWhile Char.isDigit
  let rest := l.drop ip.length
  match rest with
  | '.' :: r =>
    let fp := r.takeWhile Char.isDigit
    if ip.isEmpty && fp.isEmpty then none
    else some ((digitsToNat ip : ℚ) + (digitsToNat fp : ℚ) / (10 : ℚ) ^ fp.length)
  | _ => if ip.isEmpty then none else some (digitsToNat ip : ℚ)

/-- The unit fragment `([KMGT]?iB)` together with
`ResticBackupWrapper.parseSize`'s binary multipliers (a bare `iB` falls
into the switch's default branch, multiplier 1). -/
def unitMatch : List Char → Option (ℚ × List Char)
  | 'K' :: 'i' :: 'B' :: r => some (1024, r)
  | 'M' :: 'i' :: 'B' :: r => some (1024 * 1024, r)
  | 'G' :: 'i' :: 'B' :: r => some (1024 * 1024 * 1024, r)
  | 'T' :: 'i' :: 'B' :: r => some (1024 * 1024 * 1024 * 1024, r)
  | 'i' :: 'B' :: r => some (1, r)
  | _ => none

/-- Try a matcher at every position, returning the first success —
JavaScript `String.match` first-match semantics. -/
def scanFor {α : Type} (f : List Char → Option α) : List Char → Option α
  | [] => f []
  | l@(_ :: rest) => f l <|> scanFor f rest

/-- `/Files:\s*(\d+)\s*new,\s*(\d+)\s*changed,\s*(\d+)\s*unmodified/`
tried at one position. -/
def filesMatchAt (l : List Char) : Option (Nat × Nat × Nat) := do
  let r ← lit ("Files:".toList) l
  let (n1, r) ← digitsOpt (ws r)
  let r ← lit ("new,".toList) (ws r)
  let (n2, r) ← digitsOpt (ws r)
  let r ← lit ("changed,".toList) (ws r)
  let (n3, r) ← digitsOpt (ws r)
  let _ ← lit ("unmodified".toList) (ws r)
  some (n1, n2, n3)

/-- `/Added to the repository:\s*([\d.]+)\s*([KMGT]?iB)/` tried at one
position; yields the parsed byte count (`parseSize`). -/
def addedMatchAt (l : List Char) : Option (Option ℚ) := do
  let r ← lit ("Added to the repository:".toList) l
  let (v, r) ← numDots (ws r)
  let (m, _) ← unitMatch (ws r)
  some ((jsParseFloat v).map (fun q => q * m))

/-- `/processed\s+\d+\s+files?,\s*([\d.]+)\s*([KMGT]?iB)\s+in\s+(\d+):(\d+)/`
tried at one position; yields parsed bytes, minutes, seconds. -/
def processedMatchAt (l : List Char) : Option (Option ℚ × Nat × Nat) := do
  let r ← lit ("processed".toList) l
  let r ← ws1 r
  let (_, r) ← digitsOpt r
  let r ← ws1 r
  let r ← lit ("file".toList) r
  let r ← (match r with
    | 's' :: ',' :: rr => some rr
    | ',' :: rr => some rr
    | _ => none)
  let (v, r) ← numDots (ws r)
  let (m, r) ← unitMatch (ws r)
  let r ← ws1 r
  let r ← lit ("in".toList) r
  let r ← ws1 r
  let (mins, r) ← digitsOpt r
  let r ← lit (":".toList) r
  let (secs, _) ← digitsOpt r
  some ((jsParseFloat v).map (fun q => q * m), mins, secs)

/-- The snapshot-engine statistics object: every numeric field is
initialized to zero before any pattern is tried.  `Option ℚ` fields use
`none` for `NaN`. -/
structure ResticStats where
  changedFiles : Nat := 0
  changedSourceSize : Option ℚ := some 0
  incrementFileSize : Option ℚ := some 0
  totalDestinationSizeChange : Option ℚ := some 0
  elapsedTime : ℚ := 0
  sourceFiles : Nat := 0
  sourceSize : Option ℚ := some 0
  compressionRatio : Option ℚ := none
  spaceSavings : Option ℚ := none
deriving DecidableEq, Repr

/-- The derived-metrics step of `parseBackupOutput`: the ratios are
computed only when both operands are strictly positive (`NaN > 0` is
false in JavaScript, so a `NaN` operand also skips this step). -/
def finishResticStats (s : ResticStats) : ResticStats :=
  match s.incrementFileSize, s.changedSourceSize with
  | some inc, some src =>
    if 0 < inc ∧ 0 < src then
      { s with
        compressionRatio := some (inc / src * 100)
        spaceSavings := some ((src - inc) / src * 100) }
    else s
  | _, _ => s

/-- `ResticBackupWrapper.parseBackupOutput`: run the three summary-line
patterns over the whole output, then derive the compression ratio when
both operands are strictly positive (`NaN > 0` is false). -/
def parseBackupOutput (output : String) : ResticStats :=
  let l := output.toList
  let s0 : ResticStats := {}
  let s1 :=
    match scanFor filesMatchAt l with
    | some (n1, n2, n3) => { s0 with changedFiles := n1 + n2, sourceFiles := n1 + n2 + n3 }
    | none => s0
  let s2 :=
    match scanFor addedMatchAt l with
    | some v => { s1 with incrementFileSize := v, totalDestinationSizeChange := v }
    | none => s1
  let s3 :=
    match scanFor processedMatchAt l with
    | some (v, mins, secs) =>
      { s2 with
        changedSourceSize := v, sourceSize := v
        elapsedTime := (mins : ℚ) * 60 + (secs : ℚ) }
    | none => s2
  finishResticStats s3

/-! ## Subprocess execution (`executeCommand` of both wrappers)

The spawned process is abstracted by the event that settles the promise:
either the `close` event with the process's exit code (`null` when the
child was terminated by a signal), or the `error` event of a failed
spawn.  Both handlers resolve the promise — neither rejects — so each
executor is a total function from the event to a `BackupResult`. -/

/-- The event settling an `executeCommand` promise. -/
inductive ExecEvent where
  | close (code : Option Int) (stdout stderr : String)
  | spawnError (message : String) (stdout stderr : String)
deriving DecidableEq, Repr

/-- Identifier correlating a snapshot backup to its repository
(the `versionInfo` attached by the snapshot-engine adapter). -/
structure VersionInfoM where
  snapshotId : String
  repositoryPath : String
deriving DecidableEq, Repr

/-- The result value every public operation returns (`BackupResult` in
`types.ts`), parametrized by the statistics shape the engine attaches. -/
structure BackupResult (σ : Type) where
  success : Bool
  stdout : String
  stderr : String
  exitCode : Option Int
  error : Option String := none
  statistics : Option σ := none
  versionInfo : Option VersionInfoM := none
deriving DecidableEq, Repr

/-- JavaScript `code || 0` on the close code: `null` and `0` both give 0. -/
def jsIntOrZero (code : Option Int) : Int := code.getD 0

/-- How the close code prints inside a template string. -/
def codeText : Option Int → String
  | none => "null"
  | some c => toString c

namespace RdiffBackupWrapper

/-- `RdiffBackupWrapper.executeCommand`: resolves on both the `close`
and the `error` event; `success` is `code === 0` while `exitCode` is
`code || 0`. -/
def executeCommand : ExecEvent → BackupResult RdiffStats
  | .close code out err =>
    { success := code == some 0
      stdout := out
      stderr := err
      exitCode := some (jsIntOrZero code)
      error :=
        if code == some 0 then none
        else some ("rdiff-backup exited with code " ++ codeText code) }
  | .spawnError msg out err =>
    { success := false, stdout := out, stderr := err
      exitCode := some (-1), error := some msg }

end RdiffBackupWrapper

namespace ResticBackupWrapper

/-- `ResticBackupWrapper.executeCommand`: resolves on both events;
`exitCode` is stored as received (so a signal-terminated child yields a
null exit code), and the error message falls back to the exit code text
when stderr is empty. -/
def executeCommand : ExecEvent → BackupResult ResticStats
  | .close code out err =>
    { success := code == some 0
      stdout := (⟨trimChars out.toList⟩ : String)
      stderr := (⟨trimChars err.toList⟩ : String)
      exitCode := code
      error :=
        if code == some 0 then none
        else if err == "" then some ("Process exited with code " ++ codeText code)
        else some err }
  | .spawnError msg _ _ =>
    { success := false, stdout := "", stderr := msg
      exitCode := some (-1), error := some msg }

end ResticBackupWrapper

/-! ## Diff-engine backup flow (`RdiffBackupWrapper.backup`) -/

/-- The observables `RdiffBackupWrapper.backup` branches on: whether
`fs.access(sourcePath)` succeeds, the event settling the spawned engine
process, whether the `rdiff-backup-data` marker directory exists in the
repository afterwards, and the content of the newest
`session_statistics` file (`none` when the data directory or the file is
missing or unreadable). -/
structure RdiffWorld where
  sourceAccess : Bool
  execEvent : ExecEvent
  markerExists : Bool
  sessionStats : Option String
deriving DecidableEq, Repr

namespace RdiffBackupWrapper

/-- `RdiffBackupWrapper.verifyBackupSuccess`: `fs.access` on the
`rdiff-backup-data` directory inside the repository. -/
def verifyBackupSuccess (w : RdiffWorld) : Bool := w.markerExists

/-- `RdiffBackupWrapper.parseBackupStatistics`: read and parse the
newest session statistics file, `undefined` when unavailable. -/
def parseBackupStatistics (w : RdiffWorld) : Option RdiffStats :=
  w.sessionStats.map parseStatisticsContent

/-- `RdiffBackupWrapper.backup`: validate the source, run the engine,
then reclassify `success`: a plain success, or exit code 1 with the
marker directory present, attaches statistics and reports success; any
other outcome is returned as the executor produced it.  A thrown
validation error is caught and returned as a `-1` failure. -/
def backup (w : RdiffWorld) : BackupResult RdiffStats :=
  if w.sourceAccess then
    let result := executeCommand w.execEvent
    if result.success || (result.exitCode == some 1 && verifyBackupSuccess w) then
      { result with success := true, statistics := parseBackupStatistics w }
    else result
  else
    { success := false, stdout := "", stderr := "Error: source not accessible"
      exitCode := some (-1), error := some "Error: source not accessible" }

end RdiffBackupWrapper

/-! ## Diff-engine increment listing (`RdiffBackupWrapper.parseIncrements`) -/

/-- Exactly `n` characters satisfying `p`. -/
def takeNPred : Nat → (Char → Bool) → List Char → Option (List Char × List Char)
  | 0, _, l => some ([], l)
  | n + 1, p, c :: r =>
    if p c then (takeNPred n p r).map (fun q => (c :: q.1, q.2)) else none
  | _ + 1, _, [] => none

/-- Character class required at position `i` of the embedded-timestamp
fragment `\d{4}-\d{2}-\d{2}T\d{2}-\d{2}-\d{2}[+-]\d{2}-\d{2}` (a
fixed-width pattern, 25 characters wide: dashes at positions 4, 7, 13,
16 and 22, `T` at 10, the offset sign at 19, digits elsewhere). -/
def tsPosOk (i : Nat) (c : Char) : Bool :=
  if i == 4 || i == 7 || i == 13 || i == 16 || i == 22 then c == '-'
  else if i == 10 then c == 'T'
  else if i == 19 then c == '+' || c == '-'
  else c.isDigit

/-- The embedded-timestamp fragment
`\d{4}-\d{2}-\d{2}T\d{2}-\d{2}-\d{2}[+-]\d{2}-\d{2}`: being fixed-width,
it matches exactly when the next 25 characters satisfy `tsPosOk`
positionally; the capture is those 25 characters. -/
def timestampShape (l : List Char) : Option (List Char × List Char) :=
  let ts := l.take 25
  if ts.length == 25 && ts.enum.all (fun p => tsPosOk p.1 p.2) then
    some (ts, l.drop 25)
  else none

/-- `/increments\.(‹timestamp›)\.dir/` tried at one position. -/
def incrementMatchAt (l : List Char) : Option (List Char) := do
  let r ← lit ("increments.".toList) l
  let (ts, r) ← timestampShape r
  let _ ← lit (".dir".toList) r
  some ts

/-- Whether the last 12 characters match the end-anchored replacement
pattern `-(\d{2})-(\d{2})\+(\d{2})-(\d{2})$` (note the literal `+`). -/
def sufMatches : List Char → Bool
  | ['-', a, b, '-', c, d, '+', e, f, '-', g, h] =>
    a.isDigit && b.isDigit && c.isDigit && d.isDigit && e.isDigit && f.isDigit
      && g.isDigit && h.isDigit
  | _ => false

/-- The replacement `':$1:$2+$3:$4'` applied to a matched 12-character
suffix. -/
def sufReplacement : List Char → List Char
  | [_, a, b, _, c, d, s, e, f, _, g, h] => [':', a, b, ':', c, d, s, e, f, ':', g, h]
  | l => l

/-- The source's `ts.replace` call with the end-anchored pattern
`-(\d{2})-(\d{2})\+(\d{2})-(\d{2})$` and replacement `':$1:$2+$3:$4'`:
because the pattern is end-anchored and of fixed length 12, only the
last 12 characters can match; on a match they are rewritten, otherwise
the string is returned unchanged. -/
def reformatTimestamp (ts : List Char) : List Char :=
  if 12 ≤ ts.length && sufMatches (ts.drop (ts.length - 12)) then
    ts.take (ts.length - 12) ++ sufReplacement (ts.drop (ts.length - 12))
  else ts

/-- One parsed increment (`BackupIncrement` in `types.ts`; the `size`
field is always 0, as the source notes further parsing would be needed). -/
structure BackupIncrement where
  timestamp : String
  size : Nat
  isSnapshot : Bool
  description : String
deriving DecidableEq, Repr

/-- `RdiffBackupWrapper.parseIncrements`: trim the output, split into
lines, skip blank lines and the `Found`/`Current mirror` banner lines,
and collect an increment for every line embedding a timestamped
`increments.‹ts›.dir` name, with the timestamp run through
`reformatTimestamp`. -/
def parseIncrements (output : String) : List BackupIncrement :=
  (splitNl (trimChars output.toList)).foldl
    (fun acc line =>
      if (trimChars line).isEmpty || containsSub line ("Found".toList)
          || containsSub line ("Current mirror".toList) then acc
      else
        match scanFor incrementMatchAt line with
        | some ts =>
          acc ++ [{ timestamp := (⟨reformatTimestamp ts⟩ : String)
                    size := 0
                    isSnapshot := containsSub line ("snapshot".toList)
                    description := (⟨trimChars line⟩ : String) }]
        | none => acc)
    []

/-! ## Snapshot-engine backup flow (`ResticBackupWrapper.backupAdjacent`) -/

/-- Lowercase-hex character class `[a-f0-9]`. -/
def hexLower (c : Char) : Bool := c.isDigit || ('a' ≤ c && c ≤ 'f')

/-- The pattern `snapshot ([a-f0-9]{8}) saved` tried at one position. -/
def snapshotMatchAt (l : List Char) : Option (List Char) := do
  let r ← lit ("snapshot ".toList) l
  let (h8, r) ← takeNPred 8 hexLower r
  let _ ← lit (" saved".toList) r
  some h8

/-- First match of `/snapshot ([a-f0-9]{8}) saved/` in the engine output. -/
def findSnapshotId (out : String) : Option String :=
  (scanFor snapshotMatchAt out.toList).map (fun l => (⟨l⟩ : String))

/-- The observables `ResticBackupWrapper.backupAdjacent` branches on:
source accessibility, whether the source is a regular file, whether the
repository `config` marker already exists, the event settling the
`init` run (consulted only when the marker is absent) and the event
settling the `backup` run. -/
structure ResticWorld where
  sourceAccess : Bool
  sourceIsFile : Bool
  configExists : Bool
  initEvent : ExecEvent
  backupEvent : ExecEvent
deriving DecidableEq, Repr

namespace ResticBackupWrapper

/-- `ResticBackupWrapper.ensureRepository` succeeds: either the config
marker exists, or the `init` run exits successfully (otherwise it
throws, caught by the adjacent-backup catch block). -/
def ensureRepositoryOk (w : ResticWorld) : Bool :=
  w.configExists || (executeCommand w.initEvent).success

/-- The catch block of `backupAdjacent`: the thrown error stringified
into a `-1` failure result. -/
def adjacentFailure (msg : String) : BackupResult ResticStats :=
  { success := false, stdout := "", stderr := msg
    exitCode := some (-1), error := some msg }

/-- `ResticBackupWrapper.backupAdjacent`: validate the source, ensure
the repository under `‹destination›/restic-repository`, run the engine
backup; on engine success extract the snapshot id from the (trimmed)
output — falling back to the literal `"unknown"` when the pattern is
absent — parse statistics from the same output, and return a fresh
all-success result carrying `versionInfo`.  Every thrown error is
caught and becomes a `-1` failure. -/
def backupAdjacent (w : ResticWorld) (destinationPath : String) : BackupResult ResticStats :=
  if !w.sourceAccess then
    adjacentFailure "Error: source not accessible"
  else if !w.sourceIsFile then
    adjacentFailure "Error: Adjacent backup only supports individual files"
  else
    let repositoryPath := destinationPath ++ "/restic-repository"
    if !ensureRepositoryOk w then
      adjacentFailure ("Error: Failed to initialize repository: "
        ++ (executeCommand w.initEvent).stderr)
    else
      let result := executeCommand w.backupEvent
      if !result.success then
        adjacentFailure ("Error: Failed to create snapshot: " ++ result.stderr)
      else
        let snapshotId := (findSnapshotId result.stdout).getD "unknown"
        { success := true
          stdout := "Snapshot " ++ snapshotId ++ " created successfully"
          stderr := ""
          exitCode := some 0
          statistics := some (parseBackupOutput result.stdout)
          versionInfo := some { snapshotId := snapshotId, repositoryPath := repositoryPath } }

end ResticBackupWrapper

/-! ## Version metadata (`BackupVersioningService`) -/

namespace BackupVersioningService

/-- `BackupVersionInfo`: one 3-digit version record. -/
structure BackupVersionInfo where
  version : String
  timestamp : Nat
  backupPath : String
  fileSize : Nat
  isLatest : Bool
deriving DecidableEq, Repr

/-- `AssetBackupHistory`: the reported backup history of one asset. -/
structure AssetBackupHistory where
  assetPath : String
  backupRepository : String
  currentVersion : String
  versions : List BackupVersionInfo
  totalVersions : Nat
deriving DecidableEq, Repr

/-- The observables `getBackupHistory` branches on: whether the backup
repository directory exists, and the repository directory's
modification time (`none` when `fileService.getStats` throws, which the
catch block turns into an empty history). -/
structure HistoryWorld where
  backupExists : Bool
  statsMtime : Option Nat
deriving DecidableEq, Repr

/-- `BackupVersioningService.getBackupHistory`: when the repository
directory exists, return a single hard-coded `"001"` record built from
the directory's stats ("this is a placeholder", per the source
comments); otherwise — or when reading stats throws — return an empty
history with current version `"000"`. -/
def getBackupHistory (w : HistoryWorld) (assetPath backupPath : String) : AssetBackupHistory :=
  if w.backupExists then
    match w.statsMtime with
    | some t =>
      { assetPath := assetPath
        backupRepository := backupPath
        currentVersion := "001"
        versions := [{ version := "001", timestamp := t, backupPath := backupPath
                       fileSize := 0, isLatest := true }]
        totalVersions := 1 }
    | none =>
      { assetPath := assetPath, backupRepository := backupPath
        currentVersion := "000", versions := [], totalVersions := 0 }
  else
    { assetPath := assetPath, backupRepository := backupPath
      currentVersion := "000", versions := [], totalVersions := 0 }

end BackupVersioningService

/-! ## Rename ledger and historical paths (`BackupIntegrityService`) -/

namespace BackupIntegrityService

/-- `RenameLogEntry`: one ledger entry. -/
structure RenameLogEntry where
  oldPath : String
  newPath : String
  timestamp : String
deriving DecidableEq, Repr

/-- `addRenameLogEntry`'s ledger update: push the entry, then drop the
oldest entry (`shift`) when the ledger exceeds 100 entries. -/
def pushBounded (log : List RenameLogEntry) (e : RenameLogEntry) : List RenameLogEntry :=
  let l := log ++ [e]
  if l.length > 100 then l.drop 1 else l

/-- The observables `handleFileRename` branches on: the storage-mode
setting, whether the old and new meta directories differ, existence of
the old meta directory, existence of a meta directory at the new
location, whether the archive rename and the move rename complete
without throwing, whether the post-move existence check succeeds, and
the ledger as loaded for the new asset path. -/
structure RenameWorld where
  adjacent : Bool
  metaDirsDiffer : Bool
  oldMetaExists : Bool
  newMetaExists : Bool
  archiveOk : Bool
  moveOk : Bool
  moveVerifies : Bool
  initialLog : List RenameLogEntry
deriving DecidableEq, Repr

/-- The outcome of `handleFileRename`: the final ledger, whether the
handler took the failed-verification early return, and whether an
exception was caught. -/
structure RenameOutcome where
  log : List RenameLogEntry
  moveFailed : Bool
  errored : Bool
deriving DecidableEq, Repr

/-- `BackupIntegrityService.handleFileRename`: skip entirely for
non-adjacent storage; when the old meta directory exists and the
directories differ, archive any occupant of the new location, move the
directory, and verify — returning early (without touching the ledger)
when verification fails, and falling into the catch block (also without
touching the ledger) when a rename throws; in every branch that runs to
completion, append the rename entry via `addRenameLogEntry`. -/
def handleFileRename (w : RenameWorld) (entry : RenameLogEntry) : RenameOutcome :=
  if !w.adjacent then
    { log := w.initialLog, moveFailed := false, errored := false }
  else if w.oldMetaExists then
    if w.metaDirsDiffer then
      if w.newMetaExists && !w.archiveOk then
        { log := w.initialLog, moveFailed := false, errored := true }
      else if !w.moveOk then
        { log := w.initialLog, moveFailed := false, errored := true }
      else if !w.moveVerifies then
        { log := w.initialLog, moveFailed := true, errored := false }
      else
        { log := pushBounded w.initialLog entry, moveFailed := false, errored := false }
    else
      { log := pushBounded w.initialLog entry, moveFailed := false, errored := false }
  else
    { log := pushBounded w.initialLog entry, moveFailed := false, errored := false }

/-- The loop body chain of `getHistoricalPaths`: repeatedly find the
entry whose `newPath` is the path under scrutiny and step to its
`oldPath`, stopping when no entry matches or the fuel — the loop bound
`i < renameLog.length && i < 100` — runs out. -/
def walkHistory (log : List RenameLogEntry) : Nat → String → List String
  | 0, _ => []
  | fuel + 1, p =>
    match log.find? (fun e => e.newPath == p) with
    | some e => e.oldPath :: walkHistory log fuel e.oldPath
    | none => []

/-- `BackupIntegrityService.getHistoricalPaths`: start from the current
path, follow `newPath → oldPath` links for at most
`min (log.length) 100` hops, and return the collected chain reversed
(oldest first). -/
def getHistoricalPaths (log : List RenameLogEntry) (currentPath : String) : List String :=
  (currentPath :: walkHistory log (min log.length 100) currentPath).reverse

end BackupIntegrityService

/-! ## Concurrent backup calls

`DefaultAssetService.backupAsset` contains no synchronization
construct: it resolves paths, reserves a version number, awaits the
engine invocation and records the version metadata, with an `await` —
a yield point of the JavaScript event loop — between every two steps.
A run of two concurrent calls for the same asset is therefore any
interleaving of the two per-call step sequences; the engine subprocess
is alive between its `engineStart` and `engineEnd` events. -/

/-- The coarse steps of one `backupAsset` invocation. -/
inductive BackupStep where
  | issued
  | engineStart
  | engineEnd
  | recorded
deriving DecidableEq, Repr

/-- One scheduled event: a step of one of the concurrent calls. -/
structure BackupEv where
  task : Nat
  step : BackupStep
deriving DecidableEq, Repr

/-- The step sequence of a single `backupAsset` call. -/
def backupCallTrace (t : Nat) : List BackupEv :=
  [{ task := t, step := .issued }, { task := t, step := .engineStart },
   { task := t, step := .engineEnd }, { task := t, step := .recorded }]

/-- Event-loop schedules of two concurrent calls: arbitrary
interleavings that preserve each call's own step order. -/
inductive Interleaving : List BackupEv → List BackupEv → List BackupEv → Prop where
  | nil : Interleaving [] [] []
  | left (x : BackupEv) (xs ys zs : List BackupEv) :
      Interleaving xs ys zs → Interleaving (x :: xs) ys (x :: zs)
  | right (y : BackupEv) (xs ys zs : List BackupEv) :
      Interleaving xs ys zs → Interleaving xs (y :: ys) (y :: zs)

/-- Whether task `t`'s engine process is in flight after the prefix `p`
of a schedule: it has started more often than it has ended. -/
def engineInFlight (t : Nat) (p : List BackupEv) : Bool :=
  Nat.blt (p.countP (fun e => e.task == t && e.step == BackupStep.engineEnd))
    (p.countP (fun e => e.task == t && e.step == BackupStep.engineStart))

/-- Per-asset mutual exclusion for a schedule of calls 0 and 1: at no
point are both engine processes in flight. -/
def serializedPerAsset (tr : List BackupEv) : Prop :=
  ∀ p : List BackupEv, p <+: tr →
    ¬(engineInFlight 0 p = true ∧ engineInFlight 1 p = true)

/-- A concrete schedule in which the second call's engine process
starts while the first call's engine process is still running. -/
def overlappingSchedule : List BackupEv :=
  [{ task := 0, step := .issued }, { task := 0, step := .engineStart },
   { task := 1, step := .issued }, { task := 1, step := .engineStart },
   { task := 0, step := .engineEnd }, { task := 0, step := .recorded },
   { task := 1, step := .engineEnd }, { task := 1, step := .recorded }]

/-! ## Claim C1 -/

/-- C1: the claim states that after N successful backups the reported
history holds exactly N records labelled `"001"`..`"00N"` with
`isLatest` on the last.  The code cannot produce this for any N ≥ 2:
`getBackupHistory` is a placeholder that reports at most one hard-coded
`"001"` record (exactly when the repository directory exists and its
stats are readable), independent of how many backups succeeded, and
`backupAsset` never persists the version records it creates
(`updateVersionHistory` has no caller). -/
theorem claim_C1_history_is_placeholder :
    ∀ (w : BackupVersioningService.HistoryWorld) (assetPath backupPath : String),
      (BackupVersioningService.getBackupHistory w assetPath backupPath).versions.length ≤ 1
      ∧ ((BackupVersioningService.getBackupHistory w assetPath backupPath).versions.map
            (fun v => v.version) = []
         ∨ (BackupVersioningService.getBackupHistory w assetPath backupPath).versions.map
            (fun v => v.version) = ["001"]) := by
  intro w a b
  rcases w with ⟨exists?, mtime⟩
  cases exists? <;> cases mtime <;>
    simp [BackupVersioningService.getBackupHistory]

/-! ## Claim C2 -/

/-- C2 (counterexample): when the diff-engine child process is
terminated by a signal, the `close` event carries a null exit code; the
executor then reports `success = false` but `exitCode = 0` (from
`code || 0`), so `success` differs from `exitCode == 0`. -/
theorem claim_C2_counterexample :
    ¬ ((RdiffBackupWrapper.executeCommand (.close none "" "")).success
        = ((RdiffBackupWrapper.executeCommand (.close none "" "")).exitCode == some 0)) := by
  decide

/-- C2 (amended): both executors always settle with a result value.
`success = (exitCode == 0)` holds for the snapshot-engine executor on
every event, and for the diff-engine executor on every numeric close
code; a spawn failure yields `success = false`, `exitCode = -1` and the
spawn error message in `error` in both executors.  (The only deviation
is the diff-engine executor on a null close code, per the
counterexample.) -/
theorem claim_C2_amended :
    (∀ (c : Int) (out err : String),
       (RdiffBackupWrapper.executeCommand (.close (some c) out err)).success
         = ((RdiffBackupWrapper.executeCommand (.close (some c) out err)).exitCode == some 0))
    ∧ (∀ ev : ExecEvent,
       (ResticBackupWrapper.executeCommand ev).success
         = ((ResticBackupWrapper.executeCommand ev).exitCode == some 0))
    ∧ (∀ msg out err : String,
        RdiffBackupWrapper.executeCommand (.spawnError msg out err)
          = { success := false, stdout := out, stderr := err
              exitCode := some (-1), error := some msg })
    ∧ (∀ msg out err : String,
        ResticBackupWrapper.executeCommand (.spawnError msg out err)
          = { success := false, stdout := "", stderr := msg
              exitCode := some (-1), error := some msg }) := by
  refine ⟨?_, ?_, ?_, ?_⟩
  · intro c out err
    rfl
  · intro ev
    cases ev with
    | close code out err => rfl
    | spawnError msg out err => rfl
  · intro msg out err
    rfl
  · intro msg out err
    rfl

/-! ## Claim C3 -/

/-- C3: for a diff-engine backup whose source is accessible and whose
engine process exits with code `c`, the final result is successful
exactly when `c = 0` or (`c = 1` and the `rdiff-backup-data` marker
directory exists in the repository after the run); in the successful
case the parsed session statistics are attached, and in every other
case (in particular every nonzero exit code other than the recovered
`1`) the result remains a failure with no statistics. -/
theorem claim_C3_exit1_reclassification :
    ∀ (c : Int) (out err : String) (m : Bool) (s : Option String),
      (RdiffBackupWrapper.backup
          { sourceAccess := true, execEvent := .close (some c) out err
            markerExists := m, sessionStats := s }).success
        = (c == 0 || (c == 1 && m))
      ∧ (RdiffBackupWrapper.backup
          { sourceAccess := true, execEvent := .close (some c) out err
            markerExists := m, sessionStats := s }).statistics
        = (if c == 0 || (c == 1 && m) then s.map parseStatisticsContent else none) := by
  intro c out err m s
  unfold RdiffBackupWrapper.backup
  simp only [RdiffBackupWrapper.executeCommand, RdiffBackupWrapper.verifyBackupSuccess,
    jsIntOrZero, Option.getD]
  by_cases h0 : c = 0
  · subst h0
    simp [RdiffBackupWrapper.parseBackupStatistics]
  · have hbeq : (c == 0) = false := by
      simp [BEq.beq]
      omega
    by_cases h1 : c = 1
    · subst h1
      cases m <;> simp_all [RdiffBackupWrapper.parseBackupStatistics]
    · have hbeq1 : (c == 1) = false := by
        simp [BEq.beq]
        omega
      simp [hbeq, hbeq1]

/-! ## Claim C4 -/

/-- The branch condition under which `handleFileRename` reaches an
`addRenameLogEntry` call: adjacent mode, and either no physical move
was needed, or the archive/move/verify sequence completed. -/
def appendHappens (w : BackupIntegrityService.RenameWorld) : Bool :=
  w.adjacent
    && (!(w.oldMetaExists && w.metaDirsDiffer)
        || ((!w.newMetaExists || w.archiveOk) && w.moveOk && w.moveVerifies))

/-- A run in which the physical repository move fails post-move
verification: adjacent storage, distinct meta directories, the old meta
directory exists, nothing occupies the new location, both renames
complete, but the post-move existence check reports the destination
missing. -/
def renameVerifyFailWorld : BackupIntegrityService.RenameWorld :=
  { adjacent := true, metaDirsDiffer := true, oldMetaExists := true
    newMetaExists := false, archiveOk := true, moveOk := true
    moveVerifies := false, initialLog := [] }

/-- The rename entry of that run. -/
def renameEntryAB : BackupIntegrityService.RenameLogEntry :=
  { oldPath := "A.blend", newPath := "B.blend", timestamp := "2025-06-13T02:25:58.000Z" }

/-- C4 (counterexample): when the physical move fails post-move
verification, `handleFileRename` returns early and the ledger entry is
NOT appended — the ledger stays empty instead of receiving the entry
the claim requires. -/
theorem claim_C4_counterexample :
    ¬ ((BackupIntegrityService.handleFileRename renameVerifyFailWorld renameEntryAB).log
        = BackupIntegrityService.pushBounded renameVerifyFailWorld.initialLog renameEntryAB) := by
  decide

/-- Helper: the bounded push keeps the ledger within
`max (previous length) 100` entries. -/
theorem pushBounded_length (log : List BackupIntegrityService.RenameLogEntry)
    (e : BackupIntegrityService.RenameLogEntry) :
    (BackupIntegrityService.pushBounded log e).length ≤ max log.length 100 := by
  simp only [BackupIntegrityService.pushBounded]
  split <;> simp_all [List.length_append]

/-- C4 (amended): the rename handler appends the `RenameLogEntry`
(bounded, oldest evicted first) in every branch that runs to
completion — non-adjacent mode aside, which skips entirely — EXCEPT
when the physical move fails post-move verification (early return) or
when a filesystem rename throws (caught); in those cases the ledger is
left untouched.  The ledger never grows beyond
`max (previous length) 100` entries. -/
theorem claim_C4_amended :
    ∀ (w : BackupIntegrityService.RenameWorld) (e : BackupIntegrityService.RenameLogEntry),
      (BackupIntegrityService.handleFileRename w e).log
        = (if appendHappens w then BackupIntegrityService.pushBounded w.initialLog e
           else w.initialLog)
      ∧ (BackupIntegrityService.handleFileRename w e).log.length
          ≤ max w.initialLog.length 100 := by
  intro w e
  have hmain : (BackupIntegrityService.handleFileRename w e).log
      = (if appendHappens w then BackupIntegrityService.pushBounded w.initialLog e
         else w.initialLog) := by
    rcases w with ⟨adj, differ, oldm, newm, arch, mv, ver, log⟩
    cases adj <;> cases differ <;> cases oldm <;> cases newm <;> cases arch <;>
      cases mv <;> cases ver <;>
      simp [BackupIntegrityService.handleFileRename, appendHappens]
  refine ⟨hmain, ?_⟩
  rw [hmain]
  split
  · exact pushBounded_length _ _
  · exact Nat.le_max_left _ _

/-! ## Claim C5 -/

/-- Helper: the ledger walk performs at most `fuel` hops. -/
theorem walkHistory_length (log : List BackupIntegrityService.RenameLogEntry) :
    ∀ (fuel : Nat) (p : String),
      (BackupIntegrityService.walkHistory log fuel p).length ≤ fuel := by
  intro fuel
  induction fuel with
  | zero => intro p; simp [BackupIntegrityService.walkHistory]
  | succ n ih =>
    intro p
    rw [BackupIntegrityService.walkHistory]
    cases hf : log.find? (fun e => e.newPath == p) with
    | none => simp
    | some e =>
      simpa using ih e.oldPath

/-- Helper: walking backward from `p` yields a list whose consecutive
elements are linked by a ledger entry (`oldPath` of the later element
equals the earlier's successor's source). -/
theorem walkHistory_chain (log : List BackupIntegrityService.RenameLogEntry) :
    ∀ (fuel : Nat) (p : String),
      List.Chain' (fun x y => ∃ e ∈ log, e.oldPath = y ∧ e.newPath = x)
        (p :: BackupIntegrityService.walkHistory log fuel p) := by
  intro fuel
  induction fuel with
  | zero => intro p; simp [BackupIntegrityService.walkHistory]
  | succ n ih =>
    intro p
    rw [BackupIntegrityService.walkHistory]
    cases hf : log.find? (fun e => e.newPath == p) with
    | none => simp
    | some e =>
      have hmem : e ∈ log := List.mem_of_find?_eq_some hf
      have hpb : (e.newPath == p) = true := by simpa using List.find?_some hf
      have hp : e.newPath = p := eq_of_beq hpb
      exact List.chain'_cons.mpr ⟨⟨e, hmem, rfl, hp⟩, ih e.oldPath⟩

/-- C5: the historical-paths lookup is a total function (structurally
bounded recursion), follows at most `min (ledger length) 100` backward
links — so at most that many hops even on corrupted, cyclic ledgers —
and returns the linked chain of paths with the queried current path as
the last element (the list is reversed to oldest-first order, each
consecutive pair being an `oldPath → newPath` ledger link). -/
theorem claim_C5_historical_paths :
    ∀ (log : List BackupIntegrityService.RenameLogEntry) (current : String),
      (BackupIntegrityService.getHistoricalPaths log current).length
          ≤ min log.length 100 + 1
      ∧ (BackupIntegrityService.getHistoricalPaths log current).getLast? = some current
      ∧ List.Chain' (fun a b => ∃ e ∈ log, e.oldPath = a ∧ e.newPath = b)
          (BackupIntegrityService.getHistoricalPaths log current) := by
  intro log current
  refine ⟨?_, ?_, ?_⟩
  · simp only [BackupIntegrityService.getHistoricalPaths, List.length_reverse,
      List.length_cons]
    have := walkHistory_length log (min log.length 100) current
    omega
  · simp only [BackupIntegrityService.getHistoricalPaths, List.reverse_cons]
    exact List.getLast?_concat _
  · simp only [BackupIntegrityService.getHistoricalPaths]
    rw [List.chain'_reverse]
    exact walkHistory_chain log (min log.length 100) current

/-! ## Claim C6 -/

/-- Helper: the derived-metrics step of the snapshot-engine parser does
not modify the seven base statistics fields. -/
theorem finishResticStats_fields (s : ResticStats) :
    (finishResticStats s).changedFiles = s.changedFiles
    ∧ (finishResticStats s).changedSourceSize = s.changedSourceSize
    ∧ (finishResticStats s).incrementFileSize = s.incrementFileSize
    ∧ (finishResticStats s).totalDestinationSizeChange = s.totalDestinationSizeChange
    ∧ (finishResticStats s).elapsedTime = s.elapsedTime
    ∧ (finishResticStats s).sourceFiles = s.sourceFiles
    ∧ (finishResticStats s).sourceSize = s.sourceSize := by
  unfold finishResticStats
  split
  · split <;> exact ⟨rfl, rfl, rfl, rfl, rfl, rfl, rfl⟩
  · exact ⟨rfl, rfl, rfl, rfl, rfl, rfl, rfl⟩

/-- C6: the spec's literal test vectors.  The diff-engine line
`"ChangedSourceSize 12345 (12.06 KB)"` parses `changedSourceSize` to
`12.06` (the parenthesized human-readable number, not the byte count),
and the snapshot-engine line
`"Added to the repository: 1.331 MiB (367.652 KiB stored)"` parses
`incrementFileSize` to `1.331 * 1024 * 1024` bytes, using binary
1024-based unit multipliers. -/
theorem claim_C6_statistics_vectors :
    (parseStatisticsContent "ChangedSourceSize 12345 (12.06 KB)").changedSourceSize
        = some ((1206 : ℚ) / 100)
    ∧ (parseBackupOutput "Added to the repository: 1.331 MiB (367.652 KiB stored)").incrementFileSize
        = some ((1331 : ℚ) / 1000 * (1024 * 1024)) := by
  constructor
  · have h : (parseStatisticsContent "ChangedSourceSize 12345 (12.06 KB)").changedSourceSize
        = some ((digitsToNat ['1', '2'] : ℚ) + (digitsToNat ['0', '6'] : ℚ) / (10 : ℚ) ^ 2) :=
      rfl
    have h12 : digitsToNat ['1', '2'] = 12 := rfl
    have h06 : digitsToNat ['0', '6'] = 6 := rfl
    rw [h, h12, h06]
    norm_num
  · have h : parseBackupOutput "Added to the repository: 1.331 MiB (367.652 KiB stored)"
        = finishResticStats
            { incrementFileSize :=
                some (((digitsToNat ['1'] : ℚ) + (digitsToNat ['3', '3', '1'] : ℚ) / (10 : ℚ) ^ 3)
                  * (1024 * 1024))
              totalDestinationSizeChange :=
                some (((digitsToNat ['1'] : ℚ) + (digitsToNat ['3', '3', '1'] : ℚ) / (10 : ℚ) ^ 3)
                  * (1024 * 1024)) } :=
      rfl
    have h1 : digitsToNat ['1'] = 1 := rfl
    have h331 : digitsToNat ['3', '3', '1'] = 331 := rfl
    rw [h, (finishResticStats_fields _).2.2.1, h1, h331]
    norm_num

/-! ## Claim C7 -/

/-- C7 (counterexample): the diff-engine statistics parser starts from
an empty partial object and a field whose pattern is not found stays
absent (`undefined` behind the `as BackupStatistics` cast) — it is NOT
present with value zero: on empty input, `changedFiles` is `none`. -/
theorem claim_C7_counterexample :
    ¬ ((parseStatisticsContent "").changedFiles = some 0) := by
  decide

/-- A line that matches none of the diff-engine parser's keyword
branches. -/
def rdiffLineClean (l : List Char) : Bool :=
  !containsSub l ("ChangedFiles".toList)
    && !containsSub l ("ChangedSourceSize".toList)
    && !containsSub l ("IncrementFileSize".toList)
    && !containsSub l ("TotalDestinationSizeChange".toList)
    && !containsSub l ("ElapsedTime".toList)

/-- Helper: a keyword-free line leaves the partial statistics object
unchanged. -/
theorem parseStatisticsLine_clean (stats : RdiffStats) (line : List Char)
    (h : rdiffLineClean line = true) : parseStatisticsLine stats line = stats := by
  unfold rdiffLineClean at h
  simp only [Bool.and_eq_true, Bool.not_eq_true'] at h
  obtain ⟨⟨⟨⟨h1, h2⟩, h3⟩, h4⟩, h5⟩ := h
  unfold parseStatisticsLine
  simp_all

/-- Helper: folding keyword-free lines leaves the partial statistics
object unchanged. -/
theorem foldl_parseStatisticsLine_clean :
    ∀ (lines : List (List Char)) (stats : RdiffStats),
      lines.all rdiffLineClean = true →
      lines.foldl parseStatisticsLine stats = stats := by
  intro lines
  induction lines with
  | nil => intro stats _; rfl
  | cons l rest ih =>
    intro stats h
    rw [List.all_cons, Bool.and_eq_true] at h
    rw [List.foldl_cons, parseStatisticsLine_clean stats l h.1]
    exact ih stats h.2

/-- C7 (amended): statistics parsing is total for both engines (each
parser is a structurally recursive function).  For the snapshot engine
every numeric field whose pattern is not found keeps its initialized
zero; for the diff engine, a field whose pattern is not found stays
absent (`undefined`), not zero — in particular input with no matching
line at all yields the empty partial object. -/
theorem claim_C7_amended :
    ∀ (s t : String),
      ((splitNl s.toList).all rdiffLineClean = true →
        parseStatisticsContent s = {})
      ∧ (scanFor filesMatchAt t.toList = none →
          (parseBackupOutput t).changedFiles = 0 ∧ (parseBackupOutput t).sourceFiles = 0)
      ∧ (scanFor addedMatchAt t.toList = none →
          (parseBackupOutput t).incrementFileSize = some 0
          ∧ (parseBackupOutput t).totalDestinationSizeChange = some 0)
      ∧ (scanFor processedMatchAt t.toList = none →
          (parseBackupOutput t).changedSourceSize = some 0
          ∧ (parseBackupOutput t).elapsedTime = 0
          ∧ (parseBackupOutput t).sourceSize = some 0) := by
  intro s t
  refine ⟨?_, ?_, ?_, ?_⟩
  · intro h
    unfold parseStatisticsContent
    rw [foldl_parseStatisticsLine_clean _ _ h]
    rfl
  · intro h
    simp only [parseBackupOutput, h]
    cases ha : scanFor addedMatchAt t.toList <;>
      cases hp : scanFor processedMatchAt t.toList <;>
      exact ⟨(finishResticStats_fields _).1.trans rfl,
        ((finishResticStats_fields _).2.2.2.2.2.1).trans rfl⟩
  · intro h
    simp only [parseBackupOutput, h]
    cases hf : scanFor filesMatchAt t.toList <;>
      cases hp : scanFor processedMatchAt t.toList <;>
      exact ⟨((finishResticStats_fields _).2.2.1).trans rfl,
        ((finishResticStats_fields _).2.2.2.1).trans rfl⟩
  · intro h
    simp only [parseBackupOutput, h]
    cases hf : scanFor filesMatchAt t.toList <;>
      cases ha : scanFor addedMatchAt t.toList <;>
      exact ⟨((finishResticStats_fields _).2.1).trans rfl,
        ((finishResticStats_fields _).2.2.2.2.1).trans rfl,
        ((finishResticStats_fields _).2.2.2.2.2.2).trans rfl⟩

/-- C7 witness: concrete pattern-free inputs for both engines. -/
theorem claim_C7_amended_witness :
    parseStatisticsContent "nothing to see here" = {}
    ∧ (parseBackupOutput "nothing to see here").incrementFileSize = some 0 := by
  refine ⟨(claim_C7_amended "nothing to see here" "nothing to see here").1 (by decide),
    ((claim_C7_amended "nothing to see here" "nothing to see here").2.2.1 (by decide)).1⟩

/-! ## Claim C8 -/

/-- C8 (counterexample): an increment-listing line whose embedded
timestamp carries a NEGATIVE UTC offset is matched and returned, but
the reformatting regex requires a literal `+` before the offset, so the
timestamp is passed through unreformatted: the claim's reformatted form
is not produced. -/
theorem claim_C8_counterexample :
    ¬ ((parseIncrements "increments.2025-06-13T12-25-58-10-00.dir").map
          (fun i => i.timestamp)
        = ["2025-06-13T12:25:58-10:00"]) := by
  decide

/-- C8 (amended): the timestamp conversion rewrites `-`-separated
time-of-day and offset to `:`-separated form exactly when the offset
sign is `+`; a timestamp whose offset sign is `-` is carried to the
caller unchanged, still in the `-`-separated form. -/
theorem claim_C8_amended :
    ∀ (pre : List Char) (a b c d e f g h : Char),
      (a.isDigit = true → b.isDigit = true → c.isDigit = true → d.isDigit = true →
       e.isDigit = true → f.isDigit = true → g.isDigit = true → h.isDigit = true →
       reformatTimestamp (pre ++ ['-', a, b, '-', c, d, '+', e, f, '-', g, h])
         = pre ++ [':', a, b, ':', c, d, '+', e, f, ':', g, h])
      ∧ reformatTimestamp (pre ++ ['-', a, b, '-', c, d, '-', e, f, '-', g, h])
          = pre ++ ['-', a, b, '-', c, d, '-', e, f, '-', g, h] := by
  intro pre a b c d e f g h
  constructor
  · intro ha hb hc hd he hf hg hh
    unfold reformatTimestamp
    have hlen : (pre ++ ['-', a, b, '-', c, d, '+', e, f, '-', g, h]).length
        = pre.length + 12 := by simp
    rw [hlen]
    have h12 : pre.length + 12 - 12 = pre.length := by omega
    rw [h12, List.take_left, List.drop_left]
    have hsuf : sufMatches ['-', a, b, '-', c, d, '+', e, f, '-', g, h]
        = (a.isDigit && b.isDigit && c.isDigit && d.isDigit && e.isDigit && f.isDigit
            && g.isDigit && h.isDigit) := rfl
    have hcond : (12 ≤ pre.length + 12) = True := by simp
    simp [hsuf, ha, hb, hc, hd, he, hf, hg, hh, sufReplacement]
  · unfold reformatTimestamp
    have hlen : (pre ++ ['-', a, b, '-', c, d, '-', e, f, '-', g, h]).length
        = pre.length + 12 := by simp
    rw [hlen]
    have h12 : pre.length + 12 - 12 = pre.length := by omega
    rw [h12, List.take_left, List.drop_left]
    have hsuf : sufMatches ['-', a, b, '-', c, d, '-', e, f, '-', g, h] = false := rfl
    simp [hsuf]

/-- C8 witness: the spec's own example timestamp
`2025-06-13T12-25-58+10-00` is reformatted to
`2025-06-13T12:25:58+10:00`, while the same timestamp with a `-` offset
sign is left unchanged. -/
theorem claim_C8_amended_witness :
    reformatTimestamp
        ("2025-06-13T12".toList ++ ['-', '2', '5', '-', '5', '8', '+', '1', '0', '-', '0', '0'])
      = "2025-06-13T12".toList ++ [':', '2', '5', ':', '5', '8', '+', '1', '0', ':', '0', '0'] :=
  (claim_C8_amended "2025-06-13T12".toList '2' '5' '5' '8' '1' '0' '0' '0').1
    (by decide) (by decide) (by decide) (by decide) (by decide) (by decide) (by decide) (by decide)

/-! ## Claim C9 -/

/-- Helper: the overlapping schedule is a legal interleaving of two
concurrent `backupAsset` calls' step sequences. -/
theorem overlappingSchedule_interleaving :
    Interleaving (backupCallTrace 0) (backupCallTrace 1) overlappingSchedule := by
  refine .left _ _ _ _ (.left _ _ _ _ (.right _ _ _ _ (.right _ _ _ _
    (.left _ _ _ _ (.left _ _ _ _ (.right _ _ _ _ (.right _ _ _ _ .nil)))))))

/-- C9 (counterexample): the claimed per-asset mutual exclusion does
not hold — `backupAsset` and the command/auto-backup wiring contain no
lock, so the event-loop may run the second call's engine spawn while
the first call's engine process is still alive.  The schedule
`overlappingSchedule` is a legal interleaving whose fourth step starts
task 1's engine while task 0's engine is in flight. -/
theorem claim_C9_counterexample :
    ¬ (∀ tr : List BackupEv,
        Interleaving (backupCallTrace 0) (backupCallTrace 1) tr → serializedPerAsset tr) := by
  intro hclaim
  have hser := hclaim overlappingSchedule overlappingSchedule_interleaving
  exact hser (overlappingSchedule.take 4) (List.take_prefix 4 overlappingSchedule)
    ⟨by decide, by decide⟩

/-- C9 (amended): the code provides no per-asset mutual exclusion.
Two concurrent backup calls for the same asset allow a schedule in
which both engine processes are in flight simultaneously; only a
best-effort time-based debounce (a 2-second delay and a 5-second
minimum interval between recorded completions) limits how often
auto-backups are issued, and it does not serialize in-flight
operations. -/
theorem claim_C9_amended :
    Interleaving (backupCallTrace 0) (backupCallTrace 1) overlappingSchedule
    ∧ overlappingSchedule.take 4 <+: overlappingSchedule
    ∧ engineInFlight 0 (overlappingSchedule.take 4) = true
    ∧ engineInFlight 1 (overlappingSchedule.take 4) = true :=
  ⟨overlappingSchedule_interleaving, List.take_prefix 4 overlappingSchedule,
    by decide, by decide⟩

/-! ## Claim C10 -/

/-- C10: a snapshot-engine backup whose engine process exits with code
0 but whose output contains no `snapshot ‹8 lowercase hex› saved` line
still returns `success = true`, with the literal string `"unknown"` as
the reported snapshot id — a successful result does not guarantee a
usable snapshot identifier. -/
theorem claim_C10_unknown_snapshot :
    ∀ (w : ResticWorld) (d out err : String),
      w.sourceAccess = true → w.sourceIsFile = true → w.configExists = true →
      w.backupEvent = .close (some 0) out err →
      findSnapshotId (⟨trimChars out.toList⟩ : String) = none →
      (ResticBackupWrapper.backupAdjacent w d).success = true
      ∧ (ResticBackupWrapper.backupAdjacent w d).versionInfo
          = some { snapshotId := "unknown"
                   repositoryPath := d ++ "/restic-repository" } := by
  intro w d out err hacc hfile hcfg hev hsnap
  rcases w with ⟨acc, file, cfg, iev, bev⟩
  simp only at hacc hfile hcfg hev
  subst hacc hfile hcfg hev
  unfold ResticBackupWrapper.backupAdjacent
  simp only [ResticBackupWrapper.ensureRepositoryOk, ResticBackupWrapper.executeCommand,
    Bool.not_true, Bool.true_or, Bool.not_false]
  simp only [String.toList] at hsnap
  simp [hsnap]

/-- C10 witness: a concrete run — repository initialized, engine exits
0 with output `"ok"` (which contains no snapshot line) — returns
success with snapshot id `"unknown"`. -/
theorem claim_C10_witness :
    (ResticBackupWrapper.backupAdjacent
        { sourceAccess := true, sourceIsFile := true, configExists := true
          initEvent := .close (some 0) "" "", backupEvent := .close (some 0) "ok" "" }
        "/vault/b.blend.meta").success = true
    ∧ (ResticBackupWrapper.backupAdjacent
        { sourceAccess := true, sourceIsFile := true, configExists := true
          initEvent := .close (some 0) "" "", backupEvent := .close (some 0) "ok" "" }
        "/vault/b.blend.meta").versionInfo
        = some { snapshotId := "unknown"
                 repositoryPath := "/vault/b.blend.meta/restic-repository" } :=
  claim_C10_unknown_snapshot _ "/vault/b.blend.meta" "ok" "" rfl rfl rfl rfl (by decide)
